import Mathlib

/-!
Verification of the Tacotron-2 feature-prediction model
(`tacotron/models/tacotron.py`) against its natural-language specification.

The development shallowly embeds the parts of the source the claims are
about: the build-time configuration checks and helper selection of
`Tacotron.initialize`, the loss composition of `Tacotron.add_loss`
(including the guided-attention loss of lines 196-202), the learning-rate
schedule `Tacotron._learning_rate_decay` and its selection in
`Tacotron.add_optimizer`, the `max_iters` cap passed to `dynamic_decode`,
and the control-dependency sequencing of the optimizer update.

Tensors are represented by their presence (`Option`) together with the
size of their last axis where the concatenation of decoder targets needs
it; numeric loss computations are over `ℚ` and the learning-rate schedule
over `ℝ` (the TensorFlow `exponential_decay` exponent is a real number).
-/

namespace TacotronModel

/-- Teacher-forcing modes admitted by the source assertion
`assert hp.tacotron_teacher_forcing_mode in ('constant', 'scheduled')`. -/
inductive TeacherForcingMode
  | constant
  | scheduled
deriving DecidableEq

/-- The hyperparameters `initialize`, `add_loss`, `add_optimizer` and
`_learning_rate_decay` read from `self._hparams`. -/
structure HParams where
  num_lf0 : ℕ
  num_mgc : ℕ
  num_bap : ℕ
  mask_decoder : Bool
  max_iters : ℕ
  max_text_length : ℕ
  max_frame_num : ℕ
  tacotron_teacher_forcing_mode : TeacherForcingMode
  tacotron_decay_learning_rate : Bool
  tacotron_start_decay : ℚ
  tacotron_decay_steps : ℚ
  tacotron_decay_rate : ℚ
  tacotron_initial_learning_rate : ℚ
  tacotron_final_learning_rate : ℚ

/-- Source line 104: `max_iters = hp.max_iters if not (is_training or
is_evaluating) else None`, the iteration cap handed to `dynamic_decode`. -/
def max_iters_arg (hp : HParams) (is_training is_evaluating : Bool) : Option ℕ :=
  if ¬(is_training = true ∨ is_evaluating = true) then some hp.max_iters else none

/-- The fields `initialize` sets on success that the claims are about.
Optional tensors are recorded by presence and last-axis depth;
`decoder_targets` is the concatenation built on line 94,
`used_training_helper` records which helper variant line 93-97 picked, and
`max_iters_used` the cap of line 104. -/
structure TacotronFields where
  stop_token_targets : Option ℕ
  lf0_targets : Option ℕ
  mgc_targets : Option ℕ
  bap_targets : Option ℕ
  targets_lengths : Option ℕ
  decoder_targets : Option ℕ
  used_training_helper : Bool
  max_iters_used : Option ℕ
deriving DecidableEq

/-- Outcome of `Tacotron.initialize`.  `configError` stands for the
`ValueError`/`RuntimeError` raised by the build-time configuration checks
(lines 35-44) and for the `assert` on the global step (lines 50-52, which
the spec also classifies as a configuration error); `buildError` stands
for the `TypeError` TensorFlow raises when graph construction is applied
to an absent (`None`) tensor; `ok` carries the fields the method sets.
On `configError` no model fields are set. -/
inductive InitResult
  | configError : String → InitResult
  | buildError : String → InitResult
  | ok : TacotronFields → InitResult
deriving DecidableEq

/-- Whether an `InitResult` is a configuration error. -/
def isConfigError : InitResult → Bool
  | InitResult.configError _ => true
  | _ => false

/-- Shallow embedding of `Tacotron.initialize` (lines 19-111): the five
configuration checks in source order, the teacher-forcing assertion, then
the helper selection of lines 93-97 — the training helper branch builds
`decoder_targets = tf.concat([tf.expand_dims(lf0_targets, -1), mgc_targets,
bap_targets], -1)` (line 94), which needs all three target tensors to be
present and yields last-axis depth `1 + depth(mgc) + depth(bap)` — and the
`max_iters` selection of line 104. -/
def modelInit (hp : HParams)
    (lf0_targets mgc_targets bap_targets stop_token_targets targets_lengths : Option ℕ)
    (gta : Bool) (global_step : Option ℕ) (is_training is_evaluating : Bool) :
    InitResult :=
  if lf0_targets = none ∧ stop_token_targets ≠ none then
    InitResult.configError "no lf0 targets were provided but token_targets were given"
  else if lf0_targets ≠ none ∧ stop_token_targets = none ∧ ¬(gta = true) then
    InitResult.configError "Mel targets are provided without corresponding token_targets"
  else if gta = true ∧ mgc_targets ≠ none then
    InitResult.configError "Linear spectrogram prediction is not supported in GTA mode!"
  else if is_training = true ∧ hp.mask_decoder = true ∧ targets_lengths = none then
    InitResult.configError "Model set to mask paddings but no targets lengths provided for the mask!"
  else if is_training = true ∧ is_evaluating = true then
    InitResult.configError "Model can not be in training and evaluation modes at the same time!"
  else if hp.tacotron_teacher_forcing_mode = TeacherForcingMode.scheduled ∧
      is_training = true ∧ global_step = none then
    InitResult.configError "assert global_step is not None"
  else if is_training = true ∨ is_evaluating = true ∨ gta = true then
    match lf0_targets, mgc_targets, bap_targets with
    | some _, some dm, some db =>
        InitResult.ok
          { stop_token_targets := stop_token_targets
            lf0_targets := lf0_targets
            mgc_targets := mgc_targets
            bap_targets := bap_targets
            targets_lengths := targets_lengths
            decoder_targets := some (1 + dm + db)
            used_training_helper := true
            max_iters_used := max_iters_arg hp is_training is_evaluating }
    | _, _, _ => InitResult.buildError "tf.concat applied to a None target tensor"
  else
    InitResult.ok
      { stop_token_targets := stop_token_targets
        lf0_targets := lf0_targets
        mgc_targets := mgc_targets
        bap_targets := bap_targets
        targets_lengths := targets_lengths
        decoder_targets := none
        used_training_helper := false
        max_iters_used := max_iters_arg hp is_training is_evaluating }

/-- A concrete hyperparameter assignment used to instantiate theorems. -/
def hpW : HParams :=
  { num_lf0 := 1
    num_mgc := 2
    num_bap := 3
    mask_decoder := false
    max_iters := 20
    max_text_length := 2
    max_frame_num := 2
    tacotron_teacher_forcing_mode := TeacherForcingMode.constant
    tacotron_decay_learning_rate := false
    tacotron_start_decay := 0
    tacotron_decay_steps := 1
    tacotron_decay_rate := 1 / 2
    tacotron_initial_learning_rate := 1
    tacotron_final_learning_rate := 1 / 100 }

/-- C2: supplying acoustic (lf0) targets without stop-token targets outside
ground-truth-aligned mode makes `initialize` raise the configuration error
of line 38 before any graph construction; the result is a `configError`,
which carries no model fields, so no field is set. -/
theorem modelInit_rejects_targets_without_stop_tokens
    (hp : HParams) (l : ℕ) (mgc_targets bap_targets targets_lengths : Option ℕ)
    (global_step : Option ℕ) (is_training is_evaluating : Bool) :
    modelInit hp (some l) mgc_targets bap_targets none targets_lengths false
        global_step is_training is_evaluating =
      InitResult.configError "Mel targets are provided without corresponding token_targets" := by
  simp [modelInit]

/-- C5 counterexample: with length-masking enabled and no target lengths,
a call in evaluation mode (not training) passes every configuration check
and construction proceeds to a fully built model — no configuration error
is raised, refuting the claim that the check applies regardless of mode. -/
theorem mask_check_skipped_outside_training_cex :
    modelInit { hpW with mask_decoder := true } (some 1) (some 2) (some 3) (some 4) none
        false none false true =
      InitResult.ok
        { stop_token_targets := some 4
          lf0_targets := some 1
          mgc_targets := some 2
          bap_targets := some 3
          targets_lengths := none
          decoder_targets := some 6
          used_training_helper := true
          max_iters_used := none } := by
  decide

/-- C5 amended: the missing-target-lengths check of line 41 is guarded by
`is_training`, so length-masking without target lengths raises a
configuration error exactly when training mode is requested; outside
training mode the `mask_decoder` flag is never read by `initialize`, so
construction behaves identically with it on or off. -/
theorem mask_check_training_only (hp : HParams)
    (lf0_targets mgc_targets bap_targets stop_token_targets : Option ℕ)
    (gta : Bool) (global_step : Option ℕ) (is_evaluating : Bool) :
    (hp.mask_decoder = true →
      isConfigError
        (modelInit hp lf0_targets mgc_targets bap_targets stop_token_targets none
          gta global_step true is_evaluating) = true) ∧
    (∀ targets_lengths : Option ℕ,
      modelInit { hp with mask_decoder := true } lf0_targets mgc_targets bap_targets
          stop_token_targets targets_lengths gta global_step false is_evaluating =
        modelInit { hp with mask_decoder := false } lf0_targets mgc_targets bap_targets
          stop_token_targets targets_lengths gta global_step false is_evaluating) := by
  constructor
  · intro hmask
    simp only [modelInit]
    rw [if_pos (show True ∧ hp.mask_decoder = true ∧ True from ⟨trivial, hmask, trivial⟩)]
    split_ifs <;> rfl
  · intro targets_lengths
    simp [modelInit, max_iters_arg]

/-- C5 amended, witnessed at a concrete training-mode call. -/
theorem mask_check_training_only_witness :
    ({ hpW with mask_decoder := true } : HParams).mask_decoder = true ∧
    isConfigError
      (modelInit { hpW with mask_decoder := true } (some 1) (some 2) (some 3) (some 4) none
        false (some 0) true false) = true :=
  ⟨rfl,
    (mask_check_training_only { hpW with mask_decoder := true }
      (some 1) (some 2) (some 3) (some 4) false (some 0) false).1 rfl⟩

/-- C9: in ground-truth-aligned mode every call that passes the
configuration checks necessarily has no mgc targets (line 39 rejects
them), yet line 94 unconditionally concatenates lf0, mgc and bap targets
to build the teacher-forcing decoder targets, so the concatenation is
applied to an absent tensor and construction fails instead of producing a
target of depth `num_lf0 + num_mgc + num_bap`. -/
theorem gta_mode_cannot_build_decoder_targets (hp : HParams)
    (lf0_targets mgc_targets bap_targets stop_token_targets targets_lengths : Option ℕ)
    (global_step : Option ℕ) (is_training is_evaluating : Bool)
    (h : isConfigError
        (modelInit hp lf0_targets mgc_targets bap_targets stop_token_targets
          targets_lengths true global_step is_training is_evaluating) = false) :
    mgc_targets = none ∧
      modelInit hp lf0_targets mgc_targets bap_targets stop_token_targets
          targets_lengths true global_step is_training is_evaluating =
        InitResult.buildError "tf.concat applied to a None target tensor" := by
  simp only [modelInit] at h ⊢
  split_ifs at h ⊢ with h1 h2 h3 h4 h5 h6 h7
  all_goals try simp [isConfigError] at h
  · have hm : mgc_targets = none := by
      by_contra hc
      exact h3 ⟨trivial, hc⟩
    subst hm
    refine ⟨rfl, ?_⟩
    cases lf0_targets <;> cases bap_targets <;> rfl
  · exact absurd (Or.inr (Or.inr trivial)) h7

/-- C9 witnessed at a concrete ground-truth-aligned call that passes the
configuration checks. -/
theorem gta_mode_cannot_build_decoder_targets_witness :
    isConfigError
        (modelInit hpW (some 1) none (some 3) none none true none false false) = false ∧
      modelInit hpW (some 1) none (some 3) none none true none false false =
        InitResult.buildError "tf.concat applied to a None target tensor" :=
  ⟨by decide,
    (gta_mode_cannot_build_decoder_targets hpW (some 1) none (some 3) none none none
      false false (by decide)).2⟩

/-- Iteration count of `dynamic_decode` (TensorFlow library, modelled from
its documented semantics): starting at step `t` with `fuel` remaining
iterations allowed, one decoder-cell iteration runs per step and decoding
stops right after the step at which the helper signals completion, or when
the iteration budget is exhausted. -/
def decodeLoop (stop : ℕ → Bool) : ℕ → ℕ → ℕ
  | 0, t => t
  | fuel + 1, t => if stop t then t + 1 else decodeLoop stop fuel (t + 1)

/-- Number of decoder-cell iterations `dynamic_decode` performs under a
hard cap `cap` (`maximum_iterations`), with `stop u = true` meaning the
stop condition fires at iteration `u`. -/
def dynamic_decode_iters (stop : ℕ → Bool) (cap : ℕ) : ℕ :=
  decodeLoop stop cap 0

lemma decodeLoop_le (stop : ℕ → Bool) :
    ∀ fuel t, decodeLoop stop fuel t ≤ t + fuel := by
  intro fuel
  induction fuel with
  | zero => intro t; simp [decodeLoop]
  | succ n ih =>
      intro t
      cases hs : stop t with
      | true => simp [decodeLoop, hs] <;> omega
      | false =>
          have := ih (t + 1)
          simp [decodeLoop, hs] <;> omega

lemma decodeLoop_never_stop (stop : ℕ → Bool) (hstop : ∀ u, stop u = false) :
    ∀ fuel t, decodeLoop stop fuel t = t + fuel := by
  intro fuel
  induction fuel with
  | zero => intro t; simp [decodeLoop]
  | succ n ih =>
      intro t
      have := ih (t + 1)
      simp [decodeLoop, hstop t] <;> omega

/-- C6: the hard iteration cap of line 104 is handed to `dynamic_decode`
exactly when the model is in neither training nor evaluation mode (in
training or evaluation no cap is supplied), and under a cap of
`hp.max_iters` decoding performs at most `hp.max_iters` decoder-cell
iterations — exactly `hp.max_iters` when the stop condition never fires. -/
theorem max_iters_only_at_synthesis (hp : HParams) (is_training is_evaluating : Bool)
    (stop : ℕ → Bool) :
    (max_iters_arg hp is_training is_evaluating = some hp.max_iters ↔
      ¬(is_training = true ∨ is_evaluating = true)) ∧
    (max_iters_arg hp is_training is_evaluating = none ↔
      (is_training = true ∨ is_evaluating = true)) ∧
    dynamic_decode_iters stop hp.max_iters ≤ hp.max_iters ∧
    ((∀ u, stop u = false) → dynamic_decode_iters stop hp.max_iters = hp.max_iters) := by
  refine ⟨?_, ?_, ?_, ?_⟩
  · unfold max_iters_arg
    split_ifs with hc <;> simp [hc]
  · unfold max_iters_arg
    split_ifs with hc <;> simp [hc]
  · have := decodeLoop_le stop hp.max_iters 0
    unfold dynamic_decode_iters
    omega
  · intro hstop
    have := decodeLoop_never_stop stop hstop hp.max_iters 0
    unfold dynamic_decode_iters
    omega

/-- C6 witnessed: in free-synthesis mode with `max_iters = 20` the cap is
passed, and when the stop probability never crosses the threshold exactly
20 iterations occur. -/
theorem max_iters_only_at_synthesis_witness :
    max_iters_arg hpW false false = some 20 ∧
    dynamic_decode_iters (fun _ => false) 20 ≤ 20 ∧
    dynamic_decode_iters (fun _ => false) 20 = 20 :=
  ⟨(max_iters_only_at_synthesis hpW false false (fun _ => false)).1.mpr (by simp),
    (max_iters_only_at_synthesis hpW false false (fun _ => false)).2.2.1,
    (max_iters_only_at_synthesis hpW false false (fun _ => false)).2.2.2 (fun _ => rfl)⟩

/-- TensorFlow `tf.train.exponential_decay` without staircase (library
function, modelled from its documented semantics):
`decayed = learning_rate * decay_rate ^ (step / decay_steps)` with a
real-valued exponent. -/
noncomputable def exponential_decay (learning_rate : ℚ) (step : ℝ) (decay_steps decay_rate : ℚ) : ℝ :=
  (learning_rate : ℝ) * (decay_rate : ℝ) ^ (step / (decay_steps : ℝ))

/-- Source lines 258-282, `Tacotron._learning_rate_decay`: exponential
decay of `init_lr` starting at step `hp.tacotron_start_decay`, then
`tf.minimum(tf.maximum(lr, hp.tacotron_final_learning_rate), init_lr)`. -/
noncomputable def learning_rate_decay (hp : HParams) (init_lr : ℚ) (global_step : ℝ) : ℝ :=
  min
    (max
      (exponential_decay init_lr (global_step - (hp.tacotron_start_decay : ℝ))
        hp.tacotron_decay_steps hp.tacotron_decay_rate)
      (hp.tacotron_final_learning_rate : ℝ))
    (init_lr : ℝ)

/-- Source lines 234-239, the learning rate `add_optimizer` hands to the
Adam optimizer: the decayed schedule when `tacotron_decay_learning_rate`
is set, else the constant initial rate. -/
noncomputable def optimizer_learning_rate (hp : HParams) (global_step : ℝ) : ℝ :=
  if hp.tacotron_decay_learning_rate then
    learning_rate_decay hp hp.tacotron_initial_learning_rate global_step
  else
    (hp.tacotron_initial_learning_rate : ℝ)

/-- Clipping a value from below by `lo` and from above by `hi`, the
operation the spec's schedule formula is written with. -/
noncomputable def clip (x lo hi : ℝ) : ℝ := min (max x lo) hi

/-- The schedule formula as the spec states it:
`rate(step) = clip(init_rate * decay_rate^((step - warmup)/decay_steps), floor_rate, init_rate)`. -/
noncomputable def rate_spec (init_rate decay_rate warmup decay_steps floor_rate : ℝ) (step : ℝ) : ℝ :=
  clip (init_rate * decay_rate ^ ((step - warmup) / decay_steps)) floor_rate init_rate

/-- C3: for every non-negative global step the learning rate the schedule
produces equals the spec formula — the exponential-decay value clipped
from below by the floor rate and from above by the initial rate. -/
theorem learning_rate_decay_eq_clip_spec (hp : HParams) (init_lr : ℚ) (step : ℝ)
    (h : 0 ≤ step) :
    learning_rate_decay hp init_lr step =
      rate_spec (init_lr : ℝ) (hp.tacotron_decay_rate : ℝ) (hp.tacotron_start_decay : ℝ)
        (hp.tacotron_decay_steps : ℝ) (hp.tacotron_final_learning_rate : ℝ) step := by
  rfl

/-- C3 witnessed at step 0. -/
theorem learning_rate_decay_eq_clip_spec_witness :
    (0 : ℝ) ≤ 0 ∧
      learning_rate_decay hpW 1 0 =
        rate_spec ((1 : ℚ) : ℝ) (hpW.tacotron_decay_rate : ℝ) (hpW.tacotron_start_decay : ℝ)
          (hpW.tacotron_decay_steps : ℝ) (hpW.tacotron_final_learning_rate : ℝ) 0 :=
  ⟨le_refl 0, learning_rate_decay_eq_clip_spec hpW 1 0 (le_refl 0)⟩

/-- C10: when the decay toggle is disabled the optimizer learning rate is
the constant initial rate at every global step, and it stays that constant
whatever the warmup, decay-window, decay-rate and floor-rate parameters
are changed to. -/
theorem constant_learning_rate_when_decay_disabled (hp : HParams)
    (h : hp.tacotron_decay_learning_rate = false) :
    ∀ (step : ℝ) (w ds dr fl : ℚ),
      optimizer_learning_rate hp step = (hp.tacotron_initial_learning_rate : ℝ) ∧
      optimizer_learning_rate
          { hp with
            tacotron_start_decay := w
            tacotron_decay_steps := ds
            tacotron_decay_rate := dr
            tacotron_final_learning_rate := fl } step =
        (hp.tacotron_initial_learning_rate : ℝ) := by
  intro step w ds dr fl
  constructor <;> simp [optimizer_learning_rate, h]

/-- C10 witnessed at a concrete configuration with decay disabled. -/
theorem constant_learning_rate_when_decay_disabled_witness :
    hpW.tacotron_decay_learning_rate = false ∧
      optimizer_learning_rate hpW 7 = (hpW.tacotron_initial_learning_rate : ℝ) ∧
      optimizer_learning_rate
          { hpW with
            tacotron_start_decay := 5
            tacotron_decay_steps := 9
            tacotron_decay_rate := 1 / 3
            tacotron_final_learning_rate := 1 / 7 } 7 =
        (hpW.tacotron_initial_learning_rate : ℝ) :=
  ⟨rfl,
    (constant_learning_rate_when_decay_disabled hpW rfl 7 5 9 (1 / 3) (1 / 7)).1,
    (constant_learning_rate_when_decay_disabled hpW rfl 7 5 9 (1 / 3) (1 / 7)).2⟩

/-- A configuration meeting the claimed side conditions
`0 < decay_rate < 1` and `floor_rate ≤ init_rate` under which the schedule
does not tend to the floor rate: with `init_rate = -1` and
`floor_rate = -2` the upper clip at the initial rate pins the schedule at
`-1`, so it converges to `-1`, not to the floor. -/
def hpBad : HParams :=
  { hpW with
    tacotron_initial_learning_rate := -1
    tacotron_final_learning_rate := -2 }

lemma hpBad_rate_const {s : ℝ} (hs : 0 ≤ s) :
    learning_rate_decay hpBad (-1) s = -1 := by
  have hx0 : (0 : ℝ) < (1 / 2 : ℝ) ^ s := Real.rpow_pos_of_pos (by norm_num) s
  have hx1 : ((1 / 2 : ℝ) : ℝ) ^ s ≤ 1 := Real.rpow_le_one (by norm_num) (by norm_num) hs
  simp only [learning_rate_decay, exponential_decay, hpBad, hpW]
  norm_num
  linarith

/-- C4 counterexample: the claim grants only `0 < decay_rate < 1` and
`floor_rate ≤ init_rate`; at the concrete configuration `hpBad`
(decay rate 1/2, warmup 0, decay window 1, floor −2, initial −1) those
side conditions hold, yet the schedule does not tend to the floor rate as
the step grows, refuting the claimed limit. -/
theorem learning_rate_limit_cex :
    (0 < hpBad.tacotron_decay_rate ∧ hpBad.tacotron_decay_rate < 1 ∧
      hpBad.tacotron_final_learning_rate ≤ hpBad.tacotron_initial_learning_rate) ∧
    ¬ Filter.Tendsto (learning_rate_decay hpBad hpBad.tacotron_initial_learning_rate)
        Filter.atTop (nhds (hpBad.tacotron_final_learning_rate : ℝ)) := by
  constructor
  · refine ⟨by norm_num [hpBad, hpW], by norm_num [hpBad, hpW], by norm_num [hpBad, hpW]⟩
  · intro hcon
    have hinit : hpBad.tacotron_initial_learning_rate = (-1 : ℚ) := by norm_num [hpBad, hpW]
    rw [hinit] at hcon
    have hev : (fun _ : ℝ => (-1 : ℝ)) =ᶠ[Filter.atTop] learning_rate_decay hpBad (-1) :=
      Filter.eventuallyEq_of_mem (Filter.Ici_mem_atTop 0) fun s hs =>
        (hpBad_rate_const hs).symm
    have h1 : Filter.Tendsto (learning_rate_decay hpBad (-1)) Filter.atTop (nhds (-1)) :=
      tendsto_const_nhds.congr' hev
    have h2 := tendsto_nhds_unique hcon h1
    norm_num [hpBad, hpW] at h2

/-- C4 amended: given `0 < decay_rate < 1`, a positive decay window
`0 < decay_steps`, and `0 ≤ floor_rate ≤ init_rate`, the schedule is
non-increasing at and after the warmup step, bounded between the floor and
initial rates at every step, equals the initial rate exactly at the warmup
step, and tends to the floor rate as the step grows without bound. -/
theorem learning_rate_schedule_properties (hp : HParams) (init_lr : ℚ)
    (hd0 : 0 < hp.tacotron_decay_rate) (hd1 : hp.tacotron_decay_rate < 1)
    (hds : 0 < hp.tacotron_decay_steps)
    (hf0 : 0 ≤ hp.tacotron_final_learning_rate)
    (hfi : hp.tacotron_final_learning_rate ≤ init_lr) :
    (∀ s1 s2 : ℝ, (hp.tacotron_start_decay : ℝ) ≤ s1 → s1 ≤ s2 →
      learning_rate_decay hp init_lr s2 ≤ learning_rate_decay hp init_lr s1) ∧
    (∀ s : ℝ, (hp.tacotron_final_learning_rate : ℝ) ≤ learning_rate_decay hp init_lr s ∧
      learning_rate_decay hp init_lr s ≤ (init_lr : ℝ)) ∧
    learning_rate_decay hp init_lr (hp.tacotron_start_decay : ℝ) = (init_lr : ℝ) ∧
    Filter.Tendsto (learning_rate_decay hp init_lr) Filter.atTop
      (nhds (hp.tacotron_final_learning_rate : ℝ)) := by
  have hd0R : (0 : ℝ) < (hp.tacotron_decay_rate : ℝ) := by exact_mod_cast hd0
  have hd1R : ((hp.tacotron_decay_rate : ℝ)) < 1 := by exact_mod_cast hd1
  have hdsR : (0 : ℝ) < (hp.tacotron_decay_steps : ℝ) := by exact_mod_cast hds
  have hf0R : (0 : ℝ) ≤ (hp.tacotron_final_learning_rate : ℝ) := by exact_mod_cast hf0
  have hfiR : ((hp.tacotron_final_learning_rate : ℝ)) ≤ (init_lr : ℝ) := by exact_mod_cast hfi
  have hinitR : (0 : ℝ) ≤ (init_lr : ℝ) := le_trans hf0R hfiR
  refine ⟨?_, ?_, ?_, ?_⟩
  · intro s1 s2 _ h12
    simp only [learning_rate_decay, exponential_decay]
    refine min_le_min (max_le_max ?_ le_rfl) le_rfl
    refine mul_le_mul_of_nonneg_left ?_ hinitR
    refine Real.rpow_le_rpow_of_exponent_ge hd0R (le_of_lt hd1R) ?_
    exact (div_le_div_iff_of_pos_right hdsR).2 (sub_le_sub_right h12 _)
  · intro s
    constructor
    · exact le_min (le_max_right _ _) hfiR
    · exact min_le_right _ _
  · simp only [learning_rate_decay, exponential_decay]
    rw [sub_self, zero_div, Real.rpow_zero, mul_one, max_eq_left hfiR, min_self]
  · have hlin : Filter.Tendsto
        (fun s : ℝ => (s - (hp.tacotron_start_decay : ℝ)) / (hp.tacotron_decay_steps : ℝ))
        Filter.atTop Filter.atTop := by
      refine Filter.Tendsto.atTop_div_const hdsR ?_
      exact Filter.tendsto_atTop_add_const_right _ _ Filter.tendsto_id
    have hexp : Filter.Tendsto
        (fun s : ℝ => (hp.tacotron_decay_rate : ℝ) ^
          ((s - (hp.tacotron_start_decay : ℝ)) / (hp.tacotron_decay_steps : ℝ)))
        Filter.atTop (nhds 0) :=
      (tendsto_rpow_atTop_of_base_lt_one _ (by linarith) hd1R).comp hlin
    have hA : Filter.Tendsto
        (fun s : ℝ => (init_lr : ℝ) * (hp.tacotron_decay_rate : ℝ) ^
          ((s - (hp.tacotron_start_decay : ℝ)) / (hp.tacotron_decay_steps : ℝ)))
        Filter.atTop (nhds 0) := by
      have := hexp.const_mul (init_lr : ℝ)
      rwa [mul_zero] at this
    have hMax : Filter.Tendsto
        (fun s : ℝ => max ((init_lr : ℝ) * (hp.tacotron_decay_rate : ℝ) ^
            ((s - (hp.tacotron_start_decay : ℝ)) / (hp.tacotron_decay_steps : ℝ)))
          (hp.tacotron_final_learning_rate : ℝ))
        Filter.atTop (nhds (hp.tacotron_final_learning_rate : ℝ)) := by
      have := hA.max (tendsto_const_nhds
        (x := (hp.tacotron_final_learning_rate : ℝ)) (f := Filter.atTop))
      rwa [max_eq_right hf0R] at this
    have hMin := hMax.min (tendsto_const_nhds (x := (init_lr : ℝ)) (f := Filter.atTop))
    rw [min_eq_left hfiR] at hMin
    exact hMin

/-- C4 amended, witnessed at the concrete configuration `hpW` (decay rate
1/2, warmup 0, window 1, floor 1/100) with initial rate 1. -/
theorem learning_rate_schedule_properties_witness :
    learning_rate_decay hpW 1 (hpW.tacotron_start_decay : ℝ) = ((1 : ℚ) : ℝ) ∧
    ((hpW.tacotron_final_learning_rate : ℝ) ≤ learning_rate_decay hpW 1 5 ∧
      learning_rate_decay hpW 1 5 ≤ ((1 : ℚ) : ℝ)) ∧
    Filter.Tendsto (learning_rate_decay hpW 1) Filter.atTop
      (nhds (hpW.tacotron_final_learning_rate : ℝ)) :=
  ⟨(learning_rate_schedule_properties hpW 1 (by norm_num [hpW]) (by norm_num [hpW])
      (by norm_num [hpW]) (by norm_num [hpW]) (by norm_num [hpW])).2.2.1,
    (learning_rate_schedule_properties hpW 1 (by norm_num [hpW]) (by norm_num [hpW])
      (by norm_num [hpW]) (by norm_num [hpW]) (by norm_num [hpW])).2.1 5,
    (learning_rate_schedule_properties hpW 1 (by norm_num [hpW]) (by norm_num [hpW])
      (by norm_num [hpW]) (by norm_num [hpW]) (by norm_num [hpW])).2.2.2⟩

/-- The sentinel `tf.pad(..., constant_values=-1.)` fills padded alignment
positions with on line 198. -/
def pad_sentinel : ℚ := -1

/-- Entry `(i, j)` of the alignment matrix after line 198: genuine
alignment entries (inside the `n × t` matrix produced by decoding) are
kept, every position added by padding up to the fixed `N × T` template
holds the sentinel. -/
def padded_alignment (align : ℕ → ℕ → ℚ) (n t : ℕ) (i j : ℕ) : ℚ :=
  if i < n ∧ j < t then align i j else pad_sentinel

/-- Line 200, `tf.to_float(tf.not_equal(A, -1))`: the validity mask is 1
where the entry differs from the sentinel and 0 where it equals it. -/
def attention_mask (x : ℚ) : ℚ :=
  if x = pad_sentinel then 0 else 1

/-- Lines 201-202: the guided-attention loss is
`reduce_sum(abs(A * gts) * masks) / reduce_sum(masks)` over the padded
`N × T` template (`N = hp.max_text_length`, `T = hp.max_frame_num`). -/
def attention_loss (align gts : ℕ → ℕ → ℚ) (n t N T : ℕ) : ℚ :=
  ((Finset.range N).sum fun i => (Finset.range T).sum fun j =>
      |padded_alignment align n t i j * gts i j| *
        attention_mask (padded_alignment align n t i j)) /
  ((Finset.range N).sum fun i => (Finset.range T).sum fun j =>
      attention_mask (padded_alignment align n t i j))

lemma sum_range_ite_lt (f : ℕ → ℚ) (N n : ℕ) :
    ((Finset.range N).sum fun i => if i < n then f i else 0) =
      (Finset.range (min n N)).sum f := by
  have h1 : ((Finset.range (min n N)).sum fun i => if i < n then f i else 0) =
      ((Finset.range N).sum fun i => if i < n then f i else 0) := by
    refine Finset.sum_subset (Finset.range_subset.2 (min_le_right n N)) ?_
    intro i hiN hi
    have hN := Finset.mem_range.1 hiN
    have hmin : ¬ i < min n N := fun hc => hi (Finset.mem_range.2 hc)
    have : ¬ i < n := by omega
    exact if_neg this
  rw [← h1]
  refine Finset.sum_congr rfl ?_
  intro i hi
  exact if_pos (lt_of_lt_of_le (Finset.mem_range.1 hi) (min_le_left n N))

/-- C8: the padding sentinel −1 lies strictly outside the valid alignment
probability range [0, 1]; consequently, for alignment matrices whose
genuine entries are probabilities, the validity mask is 1 exactly on the
genuine entries and 0 exactly on the padding, and the guided-attention
loss equals the penalty-weighted sum of the genuine entries divided by
their count. -/
theorem guided_attention_sentinel_and_mask (align gts : ℕ → ℕ → ℚ) (n t N T : ℕ)
    (hent : ∀ i j, i < n → j < t → 0 ≤ align i j ∧ align i j ≤ 1)
    (hg : ∀ i j, 0 ≤ gts i j) :
    ¬(0 ≤ pad_sentinel ∧ pad_sentinel ≤ 1) ∧
    (∀ i j, attention_mask (padded_alignment align n t i j) =
      if i < n ∧ j < t then 1 else 0) ∧
    attention_loss align gts n t N T =
      ((Finset.range (min n N)).sum fun i => (Finset.range (min t T)).sum fun j =>
          align i j * gts i j) /
        (((min n N : ℕ) : ℚ) * ((min t T : ℕ) : ℚ)) := by
  have hne : ∀ i j, i < n → j < t → align i j ≠ pad_sentinel := by
    intro i j hi hj hc
    have h0 := (hent i j hi hj).1
    rw [hc] at h0
    norm_num [pad_sentinel] at h0
  have hmaskpt : ∀ i j, attention_mask (padded_alignment align n t i j) =
      if i < n ∧ j < t then 1 else 0 := by
    intro i j
    by_cases hij : i < n ∧ j < t
    · simp [padded_alignment, attention_mask, hij, hne i j hij.1 hij.2]
    · simp [padded_alignment, attention_mask, hij]
  refine ⟨by norm_num [pad_sentinel], hmaskpt, ?_⟩
  have hpoint : ∀ i j,
      |padded_alignment align n t i j * gts i j| *
          attention_mask (padded_alignment align n t i j) =
        if i < n ∧ j < t then align i j * gts i j else 0 := by
    intro i j
    by_cases hij : i < n ∧ j < t
    · have h0 := (hent i j hij.1 hij.2).1
      simp [padded_alignment, attention_mask, hij, hne i j hij.1 hij.2,
        abs_of_nonneg (mul_nonneg h0 (hg i j))]
    · simp [padded_alignment, attention_mask, hij]
  have hnum : ((Finset.range N).sum fun i => (Finset.range T).sum fun j =>
      |padded_alignment align n t i j * gts i j| *
        attention_mask (padded_alignment align n t i j)) =
      ((Finset.range (min n N)).sum fun i => (Finset.range (min t T)).sum fun j =>
        align i j * gts i j) := by
    rw [← sum_range_ite_lt
      (fun i => (Finset.range (min t T)).sum fun j => align i j * gts i j) N n]
    refine Finset.sum_congr rfl ?_
    intro i _
    by_cases hin : i < n
    · rw [if_pos hin,
        ← sum_range_ite_lt (fun j => align i j * gts i j) T t]
      refine Finset.sum_congr rfl ?_
      intro j _
      rw [hpoint i j]
      by_cases hjt : j < t
      · rw [if_pos ⟨hin, hjt⟩, if_pos hjt]
      · rw [if_neg (fun hc => hjt hc.2), if_neg hjt]
    · rw [if_neg hin]
      refine Finset.sum_eq_zero ?_
      intro j _
      rw [hpoint i j, if_neg (fun hc => hin hc.1)]
  have hden : ((Finset.range N).sum fun i => (Finset.range T).sum fun j =>
      attention_mask (padded_alignment align n t i j)) =
      ((min n N : ℕ) : ℚ) * ((min t T : ℕ) : ℚ) := by
    have hcount : ((Finset.range N).sum fun i => (Finset.range T).sum fun j =>
        attention_mask (padded_alignment align n t i j)) =
        ((Finset.range (min n N)).sum fun _ => (Finset.range (min t T)).sum fun _ => (1 : ℚ)) := by
      rw [← sum_range_ite_lt
        (fun _ => (Finset.range (min t T)).sum fun _ => (1 : ℚ)) N n]
      refine Finset.sum_congr rfl ?_
      intro i _
      by_cases hin : i < n
      · rw [if_pos hin, ← sum_range_ite_lt (fun _ => (1 : ℚ)) T t]
        refine Finset.sum_congr rfl ?_
        intro j _
        rw [hmaskpt i j]
        by_cases hjt : j < t
        · rw [if_pos ⟨hin, hjt⟩, if_pos hjt]
        · rw [if_neg (fun hc => hjt hc.2), if_neg hjt]
      · rw [if_neg hin]
        refine Finset.sum_eq_zero ?_
        intro j _
        rw [hmaskpt i j, if_neg (fun hc => hin hc.1)]
    rw [hcount]
    simp [Finset.sum_const, Finset.card_range, mul_comm]
  rw [attention_loss, hnum, hden]

/-- C8 witnessed on a concrete 1 × 1 alignment of probability 1/2 padded
into a 2 × 2 template with unit penalties. -/
theorem guided_attention_sentinel_and_mask_witness :
    ¬(0 ≤ pad_sentinel ∧ pad_sentinel ≤ 1) ∧
    attention_loss (fun _ _ => 1 / 2) (fun _ _ => 1) 1 1 2 2 =
      ((Finset.range (min 1 2)).sum fun _ => (Finset.range (min 1 2)).sum fun _ =>
          (1 / 2 : ℚ) * 1) /
        (((min 1 2 : ℕ) : ℚ) * ((min 1 2 : ℕ) : ℚ)) :=
  ⟨(guided_attention_sentinel_and_mask (fun _ _ => 1 / 2) (fun _ _ => 1) 1 1 2 2
      (fun _ _ _ _ => ⟨by norm_num, by norm_num⟩) (fun _ _ => by norm_num)).1,
    (guided_attention_sentinel_and_mask (fun _ _ => 1 / 2) (fun _ _ => 1) 1 1 2 2
      (fun _ _ _ _ => ⟨by norm_num, by norm_num⟩) (fun _ _ => by norm_num)).2.2⟩

/-- The fields `add_loss` sets (lines 218-224). -/
structure LossFields where
  before_loss : ℚ
  after_loss : ℚ
  stop_token_loss : ℚ
  regularization_loss : ℚ
  attention_loss : ℚ
  loss : ℚ
deriving DecidableEq

/-- Shallow embedding of `Tacotron.add_loss` (lines 179-224) with Python
local-variable semantics.  The individual reconstruction / stop-token term
values are taken as parameters (`MaskedMSE`, `MaskedSigmoidCrossEntropy`
and the unmasked means are computed by `modules.py`, outside this file's
source), as is the L2 regularization term computed from the trainable
variables; the guided-attention term is computed by `attention_loss` from
the alignment matrix and the penalty matrix exactly as lines 196-202 do.
The local `attention_loss` variable is bound only in the
`not hp.mask_decoder` branch, so the read on line 222 — modelled by the
`match` on the optional local — fails with an `UnboundLocalError` when
`hp.mask_decoder` is set; otherwise line 224 sums the five terms. -/
def add_loss (hp : HParams) (masked_before masked_after masked_stop : ℚ)
    (unmasked_before unmasked_after unmasked_stop : ℚ)
    (align gts : ℕ → ℕ → ℚ) (n t : ℕ) (regularization : ℚ) :
    Except String LossFields :=
  let attn_local : Option ℚ :=
    if hp.mask_decoder then none
    else some (attention_loss align gts n t hp.max_text_length hp.max_frame_num)
  let before := if hp.mask_decoder then masked_before else unmasked_before
  let after := if hp.mask_decoder then masked_after else unmasked_after
  let stop := if hp.mask_decoder then masked_stop else unmasked_stop
  match attn_local with
  | none => Except.error "UnboundLocalError: attention_loss referenced before assignment"
  | some attn =>
      Except.ok
        { before_loss := before
          after_loss := after
          stop_token_loss := stop
          regularization_loss := regularization
          attention_loss := attn
          loss := before + after + stop + regularization + attn }

/-- C1, code bug at the failing input `mask_decoder = True`: in the
length-masked branch the local `attention_loss` is never assigned yet
lines 222/224 read it, so `add_loss` raises an `UnboundLocalError` instead
of returning the claimed masked-terms-plus-L2 total; with masking disabled
the total is the sum of the three unmasked terms, the L2 term and the
guided-attention term, as the claim states for that case. -/
theorem masked_add_loss_unbound_attention_local :
    add_loss { hpW with mask_decoder := true } 1 2 3 4 5 6
        (fun _ _ => 1 / 2) (fun _ _ => 1) 1 1 7 =
      Except.error "UnboundLocalError: attention_loss referenced before assignment" ∧
    add_loss hpW 1 2 3 4 5 6 (fun _ _ => 1 / 2) (fun _ _ => 1) 1 1 7 =
      Except.ok
        { before_loss := 4
          after_loss := 5
          stop_token_loss := 6
          regularization_loss := 7
          attention_loss := attention_loss (fun _ _ => 1 / 2) (fun _ _ => 1) 1 1 2 2
          loss := 4 + 5 + 6 + 7 +
            attention_loss (fun _ _ => 1 / 2) (fun _ _ => 1) 1 1 2 2 } :=
  ⟨rfl, rfl⟩

/-- A TensorFlow graph operation reduced to what the sequencing claim
needs: its name and its control inputs (operations that must run before
it). -/
structure GraphOp where
  name : String
  control_inputs : List String
deriving DecidableEq

/-- Effect of a `with tf.control_dependencies(deps):` context on an
operation created inside it: the listed dependencies become control inputs
of the operation. -/
def control_dependencies (deps : List String) (op : GraphOp) : GraphOp :=
  { op with control_inputs := deps ++ op.control_inputs }

/-- The `optimizer.apply_gradients(...)` operation as created with no
surrounding context. -/
def apply_gradients_op : GraphOp :=
  { name := "optimizer/apply_gradients", control_inputs := [] }

/-- Source lines 252-256: `self.optimize` is `apply_gradients` created
inside `with tf.control_dependencies(tf.get_collection(UPDATE_OPS))`,
where `update_ops` is the normalization-statistics update collection. -/
def optimize_op (update_ops : List String) : GraphOp :=
  control_dependencies update_ops apply_gradients_op

/-- A schedule (the order a single iteration executes operations in)
respects an operation's control inputs when, whenever the operation runs,
each of its control inputs runs strictly before it — TensorFlow's
documented execution guarantee for control dependencies. -/
def respects_control_inputs (sched : List String) (op : GraphOp) : Prop :=
  op.name ∈ sched →
    ∀ c ∈ op.control_inputs, c ∈ sched ∧ sched.indexOf c < sched.indexOf op.name

/-- C7: every operation in the normalization-updates collection is an
explicit control input of the applied-update operation, so in any
execution schedule that respects control inputs and runs the update, every
normalization-statistics update runs strictly before the parameter
update. -/
theorem update_ops_precede_apply_gradients (update_ops sched : List String)
    (hsched : respects_control_inputs sched (optimize_op update_ops))
    (hmem : (optimize_op update_ops).name ∈ sched) :
    ∀ u ∈ update_ops,
      u ∈ (optimize_op update_ops).control_inputs ∧
      u ∈ sched ∧ sched.indexOf u < sched.indexOf (optimize_op update_ops).name := by
  intro u hu
  have hin : u ∈ (optimize_op update_ops).control_inputs := by
    simp [optimize_op, control_dependencies, apply_gradients_op, hu]
  exact ⟨hin, hsched hmem u hin⟩

/-- C7 witnessed on a one-element update collection and the schedule that
runs the batch-normalization update first. -/
theorem update_ops_precede_apply_gradients_witness :
    "batchnorm_update" ∈ (optimize_op ["batchnorm_update"]).control_inputs ∧
    List.indexOf "batchnorm_update" ["batchnorm_update", "optimizer/apply_gradients"] <
      List.indexOf "optimizer/apply_gradients"
        ["batchnorm_update", "optimizer/apply_gradients"] :=
  ⟨(update_ops_precede_apply_gradients ["batchnorm_update"]
      ["batchnorm_update", "optimizer/apply_gradients"] (by intro hmem; decide) (by decide)
      "batchnorm_update" (by decide)).1,
    (update_ops_precede_apply_gradients ["batchnorm_update"]
      ["batchnorm_update", "optimizer/apply_gradients"] (by intro hmem; decide) (by decide)
      "batchnorm_update" (by decide)).2.2⟩

end TacotronModel
